import Mathlib

/-!
Verification of the gesture-control core of the ParticleEngine repository.

The development shallowly embeds, over exact rational arithmetic:
* the landmark classifiers `detectFist` / `detectOpenPalm` / `detectTwoFingers`
  and the pinch distance (GestureOverlay component),
* the per-frame gesture state machine of `predictWebcam`,
* the application-level gesture handler `handleGesture`, the grab handler
  `handleObjectHit`, the `CenterRaycaster` object selector, and the
  `CameraRig` focus/restore animator (App component).

Modelling conventions, used consistently below:
* JavaScript numbers are modelled as rationals (`ℚ`).  Decimal literals of the
  source (`0.005`, `0.05`, `0.12`, `0.4`, `20.0`, ...) are taken at their exact
  decimal value; `Math.PI` is taken at the exact value of the IEEE-754 double
  it denotes.
* Every comparison of the source that compares two Euclidean norms
  (`Math.hypot(..) < Math.hypot(..)`, `dist < 0.05`, `vec.length() > 5`,
  `distanceTo(..) < 0.1`, the `a.dist - b.dist` sort key) is embedded as the
  equivalent comparison of squared norms; `Real.sqrt` is strictly monotone on
  nonnegative arguments, so the two are logically equivalent while keeping the
  definitions computable over `ℚ`.
-/

/-- Landmark / vector in the 2D normalized image plane.  The source reads only
the `x` and `y` components of a landmark (all `Math.hypot` calls are 2D), so
the `z` component is omitted from the model. -/
abbrev Pt : Type := ℚ × ℚ

/-- Squared 2D Euclidean distance.  Embeds `Math.hypot(a.x - b.x, a.y - b.y)`
up to squaring (see the header note on squared-norm comparisons). -/
def d2 (a b : Pt) : ℚ := (a.1 - b.1) ^ 2 + (a.2 - b.2) ^ 2

/-- Math helper of GestureOverlay:
`const lerp = (start, end, factor) => start + (end - start) * factor`. -/
def lerp (start stop factor : ℚ) : ℚ := start + (stop - start) * factor

/-- One detected hand: the MediaPipe landmark array, exposed through its
indexing function.  The detector contract delivers 21 landmarks; the source
only ever reads the fixed indices 0, 4, 6, 8, 9, 10, 12, 14, 16, 18, 20. -/
abbrev Hand : Type := ℕ → Pt

/-- Shared helper of the three detectors: a fingertip is folded when its
(2D) distance from the wrist (landmark 0) is smaller than the distance of its
pip joint from the wrist.  Each detector in the source declares this lambda
locally with an identical body. -/
def isFolded (h : Hand) (tipIdx pipIdx : ℕ) : Bool :=
  d2 (h tipIdx) (h 0) < d2 (h pipIdx) (h 0)

/-- Shared helper of `detectOpenPalm` / `detectTwoFingers`: a fingertip is
extended when its distance from the wrist exceeds its pip joint's distance. -/
def isExtended (h : Hand) (tipIdx pipIdx : ℕ) : Bool :=
  d2 (h pipIdx) (h 0) < d2 (h tipIdx) (h 0)

/-- GestureOverlay `detectFist`: index, middle, ring and pinky all folded. -/
def detectFist (h : Hand) : Bool :=
  isFolded h 8 6 && isFolded h 12 10 && isFolded h 16 14 && isFolded h 20 18

/-- GestureOverlay `detectOpenPalm`: index, middle, ring and pinky all
extended (the thumb is deliberately ignored by the source). -/
def detectOpenPalm (h : Hand) : Bool :=
  isExtended h 8 6 && isExtended h 12 10 && isExtended h 16 14 && isExtended h 20 18

/-- GestureOverlay `detectTwoFingers`: index and middle extended, ring and
pinky folded. -/
def detectTwoFingers (h : Hand) : Bool :=
  let indexExt := isExtended h 8 6
  let middleExt := isExtended h 12 10
  let ringFold := isFolded h 16 14
  let pinkyFold := isFolded h 20 18
  indexExt && middleExt && ringFold && pinkyFold

/-!
Exception-aware variants of the classifiers, over the raw landmark list.

JavaScript array indexing past the end yields `undefined`, and the subsequent
`tip.x` property access throws a `TypeError`.  These variants embed that
behaviour: a lookup of a missing landmark is `none`, and `none` propagates
exactly as far as the JavaScript exception would (in particular `&&` in
`detectFist` short-circuits, while `detectTwoFingers` evaluates all four
finger checks into `const`s before combining them).
-/

/-- Fallible version of `isFolded` over the raw landmark list; `none` models
the `TypeError` thrown when `tip`, `wrist` or `pip` is `undefined`. -/
def isFoldedE (lm : List Pt) (tipIdx pipIdx : ℕ) : Option Bool := do
  let tip ← lm.get? tipIdx
  let wrist ← lm.get? 0
  let pip ← lm.get? pipIdx
  pure (decide (d2 tip wrist < d2 pip wrist))

/-- Fallible version of `isExtended` over the raw landmark list. -/
def isExtendedE (lm : List Pt) (tipIdx pipIdx : ℕ) : Option Bool := do
  let tip ← lm.get? tipIdx
  let wrist ← lm.get? 0
  let pip ← lm.get? pipIdx
  pure (decide (d2 pip wrist < d2 tip wrist))

/-- Fallible `detectFist`.  The `&&` chain of the source short-circuits, so a
later finger's landmarks are only touched when every earlier finger was
folded. -/
def detectFistE (lm : List Pt) : Option Bool := do
  let f1 ← isFoldedE lm 8 6
  if f1 then do
    let f2 ← isFoldedE lm 12 10
    if f2 then do
      let f3 ← isFoldedE lm 16 14
      if f3 then isFoldedE lm 20 18 else pure false
    else pure false
  else pure false

/-- Fallible `detectTwoFingers`.  The source computes all four finger checks
into local `const`s before combining them, so every access happens. -/
def detectTwoFingersE (lm : List Pt) : Option Bool := do
  let indexExt ← isExtendedE lm 8 6
  let middleExt ← isExtendedE lm 12 10
  let ringFold ← isFoldedE lm 16 14
  let pinkyFold ← isFoldedE lm 20 18
  pure (indexExt && middleExt && ringFold && pinkyFold)

/-- Discrete gesture events delivered to the external consumer through the
`onGesture` callback.  `Idle` is the spec's name for a processed frame that
delivers no callback (the state machine emits at most one callback per
frame). -/
inductive GEvent where
  | Grab : GEvent
  | Release : GEvent
  | Rotate : ℚ → ℚ → GEvent
  | ZoomIn : GEvent
  | ZoomOut : GEvent
  | Idle : GEvent
deriving DecidableEq

/-- UI labels passed to `setActiveGesture`; each constructor stands for the
corresponding string literal of the source. -/
inductive GLabel where
  | grabbing : GLabel
  | holding : GLabel
  | releasing : GLabel
  | moving : GLabel
  | moveDisabled : GLabel
  | zoomOutLbl : GLabel
  | zoomInLbl : GLabel
  | idleLbl : GLabel
deriving DecidableEq

/-- Persistent tracking refs of GestureOverlay: `wasFist`, `lastPalmPos`,
`smoothRot`. -/
structure TrackState where
  wasFist : Bool
  lastPalmPos : Option Pt
  smoothRot : Pt
deriving DecidableEq

/-- Initial values of the tracking refs
(`useRef(false)`, `useRef(null)`, `useRef({x: 0, y: 0})`). -/
def initTrack : TrackState := { wasFist := false, lastPalmPos := none, smoothRot := (0, 0) }

/-- Result of one `predictWebcam` frame: the updated tracking refs, the list
of `onGesture` calls made during the frame (in call order), and the
`setActiveGesture` call if one was made (`some none` embeds
`setActiveGesture(null)`). -/
structure FrameOut where
  state : TrackState
  events : List GEvent
  labelSet : Option (Option GLabel)
deriving DecidableEq

/-- Gesture logic of one `predictWebcam` frame (the `GESTURE LOGIC` block).
`hand?` is `results.landmarks[0]` when at least one hand was detected,
`isInPreview` is the prop driven by the application's `focusTarget`.
Thresholds: the deadzone `0.005` on raw deltas, the pinch thresholds `0.05`
and `0.12` embedded as squared distances `1/400` and `9/625`, and the
smoothing factor `0.4`. -/
def processFrame (isInPreview : Bool) (s : TrackState) (hand? : Option Hand) : FrameOut :=
  match hand? with
  | none =>
      { state := { wasFist := false, lastPalmPos := none, smoothRot := s.smoothRot },
        events := [], labelSet := some none }
  | some landmarks =>
      let palmCenter := landmarks 9
      let isFist := detectFist landmarks
      let isOpen := detectOpenPalm landmarks
      let isTwoFingers := detectTwoFingers landmarks
      if isFist then
        if !s.wasFist then
          { state := { wasFist := true, lastPalmPos := none, smoothRot := s.smoothRot },
            events := [GEvent.Grab], labelSet := some (some GLabel.grabbing) }
        else
          { state := { wasFist := true, lastPalmPos := none, smoothRot := s.smoothRot },
            events := [], labelSet := some (some GLabel.holding) }
      else if isOpen then
        { state := { wasFist := false, lastPalmPos := none, smoothRot := s.smoothRot },
          events := [GEvent.Release], labelSet := some (some GLabel.releasing) }
      else if isTwoFingers then
        if !isInPreview then
          match s.lastPalmPos with
          | some lp =>
              let dx := palmCenter.1 - lp.1
              let dy := palmCenter.2 - lp.2
              if 5 / 1000 < |dx| ∨ 5 / 1000 < |dy| then
                let sx := lerp s.smoothRot.1 dx (2 / 5)
                let sy := lerp s.smoothRot.2 dy (2 / 5)
                { state := { wasFist := false, lastPalmPos := some palmCenter,
                             smoothRot := (sx, sy) },
                  events := [GEvent.Rotate (-sx) sy], labelSet := some (some GLabel.moving) }
              else
                { state := { wasFist := false, lastPalmPos := some palmCenter,
                             smoothRot := s.smoothRot },
                  events := [], labelSet := none }
          | none =>
              { state := { wasFist := false, lastPalmPos := some palmCenter,
                           smoothRot := s.smoothRot },
                events := [], labelSet := none }
        else
          { state := { wasFist := false, lastPalmPos := s.lastPalmPos,
                       smoothRot := s.smoothRot },
            events := [], labelSet := some (some GLabel.moveDisabled) }
      else
        let pinchSq := d2 (landmarks 4) (landmarks 8)
        if pinchSq < 1 / 400 then
          { state := { wasFist := false, lastPalmPos := none, smoothRot := s.smoothRot },
            events := [GEvent.ZoomOut], labelSet := some (some GLabel.zoomOutLbl) }
        else if 9 / 625 < pinchSq then
          { state := { wasFist := false, lastPalmPos := none, smoothRot := s.smoothRot },
            events := [GEvent.ZoomIn], labelSet := some (some GLabel.zoomInLbl) }
        else
          { state := { wasFist := false, lastPalmPos := none, smoothRot := s.smoothRot },
            events := [], labelSet := some (some GLabel.idleLbl) }

/-- Gesture event of a processed frame in the spec's vocabulary: the single
`onGesture` call of the frame, or `Idle` when the frame made none. -/
def frameEvent (o : FrameOut) : GEvent := o.events.headD GEvent.Idle

/-- Fold of `processFrame` over a sequence of frames, collecting the
per-frame `onGesture` call lists. -/
def processSeq (isInPreview : Bool) : TrackState → List (Option Hand) → TrackState × List (List GEvent)
  | s, [] => (s, [])
  | s, f :: fs =>
      let fo := processFrame isInPreview s f
      let rest := processSeq isInPreview fo.state fs
      (rest.1, fo.events :: rest.2)

/-- Number of `Grab` callbacks in a per-frame event-list sequence. -/
def grabCount (evss : List (List GEvent)) : ℕ :=
  (evss.map (fun evs => evs.count GEvent.Grab)).sum

/-- Concrete fist hand: index/middle/ring/pinky tips strictly nearer the
wrist `(1/2, 1/2)` than their pip joints. -/
def fistHand : Hand := fun i =>
  if i = 8 ∨ i = 12 ∨ i = 16 ∨ i = 20 then (3 / 5, 1 / 2)
  else if i = 6 ∨ i = 10 ∨ i = 14 ∨ i = 18 then (7 / 10, 1 / 2)
  else (1 / 2, 1 / 2)

/-- Concrete open palm: the four tracked fingertips strictly farther from the
wrist than their pip joints. -/
def openHand : Hand := fun i =>
  if i = 8 ∨ i = 12 ∨ i = 16 ∨ i = 20 then (4 / 5, 1 / 2)
  else if i = 6 ∨ i = 10 ∨ i = 14 ∨ i = 18 then (7 / 10, 1 / 2)
  else (1 / 2, 1 / 2)

/-- Concrete unclassified hand (neither fist, open palm nor two-finger point:
every tip sits exactly on its pip joint), with the thumb tip placed at
horizontal pinch distance `d` from the index tip. -/
def neutralHand (d : ℚ) : Hand := fun i =>
  if i = 4 then (7 / 10 - d, 1 / 2)
  else if i = 8 ∨ i = 12 ∨ i = 16 ∨ i = 20 then (7 / 10, 1 / 2)
  else if i = 6 ∨ i = 10 ∨ i = 14 ∨ i = 18 then (7 / 10, 1 / 2)
  else (1 / 2, 1 / 2)

/-- Concrete two-finger-point hand (index/middle extended, ring/pinky folded)
whose palm-center landmark 9 sits at `(px, py)`. -/
def twoFingerHand (px py : ℚ) : Hand := fun i =>
  if i = 9 then (px, py)
  else if i = 8 ∨ i = 12 then (4 / 5, 1 / 2)
  else if i = 16 ∨ i = 20 then (3 / 5, 1 / 2)
  else if i = 6 ∨ i = 10 ∨ i = 14 ∨ i = 18 then (7 / 10, 1 / 2)
  else (1 / 2, 1 / 2)

/-- The frame sequence of the spec's edge-triggering test:
open, fist, fist, fist, open. -/
def demoSeq : List (Option Hand) :=
  [some openHand, some fistHand, some fistHand, some fistHand, some openHand]

/-!
Application layer (App component): 3D vectors and quaternions, the orbit
camera mutated by `handleGesture`, the grab handler `handleObjectHit`, the
`CenterRaycaster` object selector and the `CameraRig` focus/restore
animator.
-/

/-- World-space 3D vector `(x, y, z)`. -/
abbrev V3 : Type := ℚ × ℚ × ℚ

/-- Componentwise vector sum. -/
def addV (a b : V3) : V3 := (a.1 + b.1, a.2.1 + b.2.1, a.2.2 + b.2.2)

/-- Componentwise vector difference. -/
def subV (a b : V3) : V3 := (a.1 - b.1, a.2.1 - b.2.1, a.2.2 - b.2.2)

/-- Scalar multiple of a vector. -/
def smulV (c : ℚ) (v : V3) : V3 := (c * v.1, c * v.2.1, c * v.2.2)

/-- Dot product. -/
def dotV (a b : V3) : ℚ := a.1 * b.1 + a.2.1 * b.2.1 + a.2.2 * b.2.2

/-- Cross product. -/
def crossV (a b : V3) : V3 :=
  (a.2.1 * b.2.2 - a.2.2 * b.2.1, a.2.2 * b.1 - a.1 * b.2.2, a.1 * b.2.1 - a.2.1 * b.1)

/-- Squared length, embedding `THREE.Vector3.length()` comparisons. -/
def lengthSqV (v : V3) : ℚ := dotV v v

/-- Squared distance, embedding `THREE.Vector3.distanceTo` comparisons. -/
def d2V (a b : V3) : ℚ := lengthSqV (subV a b)

/-- Linear interpolation `THREE.Vector3.lerp(target, t)`:
`a + (target - a) * t` componentwise. -/
def lerpV (a b : V3) (t : ℚ) : V3 := addV a (smulV t (subV b a))

/-- Quaternion `(x, y, z, w)` as stored by THREE.js. -/
structure Quat where
  x : ℚ
  y : ℚ
  z : ℚ
  w : ℚ
deriving DecidableEq

/-- The identity quaternion. -/
def idQuat : Quat := { x := 0, y := 0, z := 0, w := 1 }

/-- Rotation of a vector by a quaternion, the exact rational formula
implemented by `THREE.Vector3.applyQuaternion`:
`t = 2 (q.xyz × v)`, `v + q.w t + q.xyz × t`. -/
def applyQuat (q : Quat) (v : V3) : V3 :=
  let qv : V3 := (q.x, q.y, q.z)
  let t := smulV 2 (crossV qv v)
  addV v (addV (smulV q.w t) (crossV qv t))

/-- Exact rational value of the IEEE-754 double `Math.PI`
(`884279719003555 / 2^48`). -/
def mathPI : ℚ := 884279719003555 / 281474976710656

/-- Rotate sensitivity constant of `handleGesture` (`SENSITIVITY = 20.0`). -/
def SENSITIVITY : ℚ := 20

/-- The application's `FocusTarget`: position, world rotation and extents of
the previewed album image.  `none` at the `App` level means free-orbit
mode. -/
structure FocusTargetM where
  position : V3
  rotation : Quat
  width : ℚ
  height : ℚ
deriving DecidableEq

/-- Orbit camera state owned by the `OrbitControls` ref: the azimuthal and
polar angles read/written through `getAzimuthalAngle` / `setAzimuthalAngle` /
`getPolarAngle` / `setPolarAngle`, the camera world position and quaternion
(`controls.object`), and the orbit target. -/
structure OrbitCam where
  azimuth : ℚ
  polar : ℚ
  camPos : V3
  camQuat : Quat
  target : V3
deriving DecidableEq

/-- Application state touched by the gesture handler: the orbit camera, the
`focusTarget` React state and the `grabSignal` counter. -/
structure AppState where
  cam : OrbitCam
  focusTarget : Option FocusTargetM
  grabSignal : ℕ
deriving DecidableEq

/-- App `isPaused = focusTarget !== null`: freezes the per-layer particle
animation. -/
def isPaused (s : AppState) : Bool := s.focusTarget.isSome

/-- App `isInPreview={focusTarget !== null}`: the preview-mode flag fed to
the GestureOverlay. -/
def previewActive (s : AppState) : Bool := s.focusTarget.isSome

/-- App `handleGesture` (strict gesture handling): Rotate orbits the camera
only when no `focusTarget` is active, clamping the polar angle into
`[0.1, π - 0.1]`; ZoomIn/ZoomOut translate camera and target along the
camera's forward vector with min/max distance guards (`length > 5`,
`length < 100`, embedded squared); Grab bumps the `grabSignal`; Release
clears the `focusTarget`.  `ZOOM_STEP = 1.0`, so the in-place
`multiplyScalar(ZOOM_STEP)` mutations of `forward` in the source leave it
unchanged and are dropped here. -/
def handleGesture (s : AppState) (g : GEvent) : AppState :=
  match g with
  | GEvent.Rotate dx dy =>
      if s.focusTarget.isNone then
        let newAzimuth := s.cam.azimuth - dx * SENSITIVITY
        let newPolar := max (1 / 10) (min (mathPI - 1 / 10) (s.cam.polar - dy * SENSITIVITY))
        { s with cam := { s.cam with azimuth := newAzimuth, polar := newPolar } }
      else s
  | GEvent.ZoomIn =>
      let forward := applyQuat s.cam.camQuat (0, 0, -1)
      let nextPos := addV s.cam.camPos forward
      if 25 < lengthSqV nextPos then
        { s with cam := { s.cam with camPos := addV s.cam.camPos forward,
                                     target := addV s.cam.target forward } }
      else s
  | GEvent.ZoomOut =>
      let forward := applyQuat s.cam.camQuat (0, 0, -1)
      let nextPos := subV s.cam.camPos forward
      if lengthSqV nextPos < 10000 then
        { s with cam := { s.cam with camPos := subV s.cam.camPos forward,
                                     target := subV s.cam.target forward } }
      else s
  | GEvent.Grab => { s with grabSignal := s.grabSignal + 1 }
  | GEvent.Release => { s with focusTarget := none }
  | GEvent.Idle => s

/-- Payload handed to `handleObjectHit` by the `CenterRaycaster`: the spread
`userData` of the best candidate (its `type` tag and extents) together with
the world position and quaternion read from the hit object.  The AlbumLayer
tags each image group with `userData.type = 'album-image'`. -/
structure HitData where
  utype : String
  position : V3
  rotation : Quat
  width : ℚ
  height : ℚ

/-- App `handleObjectHit`: a Grab selection result sets the `focusTarget`
only when the hit's `userData.type` is `'album-image'`; any other hit leaves
the state untouched. -/
def handleObjectHit (s : AppState) (hit : HitData) : AppState :=
  if hit.utype = "album-image" then
    { s with focusTarget := some { position := hit.position, rotation := hit.rotation,
                                   width := hit.width, height := hit.height } }
  else s

/-- Scene object as seen by the `CenterRaycaster` scan: the `isInteractable`
tag, the world position and quaternion of the object, and its projected
normalized-device coordinates.  The NDC projection
(`pos.clone().project(camera)`) is performed by the external camera
collaborator, so the model carries it as an input field. -/
structure SceneObj where
  isInteractable : Bool
  ndc : V3
  pos : V3
  quat : Quat
deriving DecidableEq

/-- Candidate record pushed by the `CenterRaycaster`:
`{ alignment, dist, obj }`, with the camera distance embedded squared. -/
structure Candidate where
  alignment : ℚ
  distSq : ℚ
  obj : SceneObj
deriving DecidableEq

/-- Candidate collection pass of the `CenterRaycaster`: keep interactable
objects whose NDC position satisfies `|z| < 1`, `|x| < 0.8`, `|y| < 0.8`,
compute `alignment = camDir · (objectQuat ⬝ (0,0,1))`, and keep those with
`alignment < 0.2`. -/
def candidatesOf (camDir camPos : V3) (objs : List SceneObj) : List Candidate :=
  objs.filterMap (fun o =>
    if o.isInteractable then
      if |o.ndc.2.2| < 1 ∧ |o.ndc.1| < 8 / 10 ∧ |o.ndc.2.1| < 8 / 10 then
        let objNormal := applyQuat o.quat (0, 0, 1)
        let alignment := dotV camDir objNormal
        if alignment < 2 / 10 then
          some { alignment := alignment, distSq := d2V o.pos camPos, obj := o }
        else none
      else none
    else none)

/-- Sort comparator of the `CenterRaycaster` (sign-relevant value of the
JavaScript comparator): distance difference when the alignments are within
0.1 of each other, alignment difference otherwise.  Distances are embedded
squared, which preserves the sign. -/
def compareCand (a b : Candidate) : ℚ :=
  if |a.alignment - b.alignment| < 1 / 10 then a.distSq - b.distSq
  else a.alignment - b.alignment

/-- Stable insertion of a candidate: it passes every earlier element it does
not strictly precede, as a stable `Array.prototype.sort` would keep it. -/
def insertCand (x : Candidate) : List Candidate → List Candidate
  | [] => [x]
  | y :: ys => if compareCand x y < 0 then x :: y :: ys else y :: insertCand x ys

/-- Stable sort by the raycaster comparator.  `Array.prototype.sort` is
required to be stable; its exact algorithm is unspecified, and for the
two-candidate situations exercised below every stable comparison sort
agrees. -/
def sortCands (l : List Candidate) : List Candidate :=
  l.foldl (fun acc x => insertCand x acc) []

/-- Result of a `CenterRaycaster` trigger: the top-ranked surviving
candidate (`candidates[0]` of the sorted array), or `none` when no candidate
survives, in which case `onHit` is not called. -/
def selectorBest (camDir camPos : V3) (objs : List SceneObj) : Option Candidate :=
  (sortCands (candidatesOf camDir camPos objs)).head?

/-!
Camera focus/restore animator (`CameraRig`).  The transcendental helpers of
THREE.js — `Math.tan`, quaternion `slerp`, and the look-at quaternion built
from `Matrix4.lookAt` — have no exact rational form; they enter the model as
parameters (`RigOps`), so every theorem about the rig holds for every
implementation of them.  The fixed up-vector `(0,1,0)` of the look-at call
is absorbed into the `lookAtQuat` parameter.
-/

/-- Abstracted transcendental operations used by the `CameraRig` tick. -/
structure RigOps where
  tan : ℚ → ℚ
  slerp : Quat → Quat → ℚ → Quat
  lookAtQuat : V3 → V3 → Quat

/-- Degrees to radians (`THREE.MathUtils.degToRad`). -/
def degToRad (deg : ℚ) : ℚ := deg * mathPI / 180

/-- The `stateRef` of `CameraRig`: whether a pre-focus pose is saved, and the
saved camera position, quaternion and orbit target. -/
structure RigSnapshot where
  saved : Bool
  position : V3
  quaternion : Quat
  target : V3
deriving DecidableEq

/-- Camera pose mutated by the rig. -/
structure RigCamera where
  pos : V3
  quat : Quat
deriving DecidableEq

/-- Orbit-controls state seen by the rig: the orbit target and the
`enabled` flag. -/
structure RigControls where
  target : V3
  enabled : Bool
deriving DecidableEq

/-- Full state touched by one `CameraRig` `useFrame` tick. -/
structure RigWorld where
  snap : RigSnapshot
  cam : RigCamera
  ctrl : RigControls
deriving DecidableEq

/-- One `useFrame` tick of `CameraRig` with `step = 4 * delta`.  With a
focus target: snapshot the camera pose on first entry and disable the
controls, then lerp the camera toward the framing pose at distance
`(height/2) / tan(fovRad/2) * 1.3` along the target's facing normal, slerp
its orientation toward look-at, and lerp the orbit target.  Without a focus
target and with a saved pose: lerp everything back toward the snapshot and,
once the squared position error drops below `0.1² = 1/100`, mark the restore
complete and re-enable the controls.  Without a saved pose: no-op. -/
def rigTick (ops : RigOps) (fov : ℚ) (focus : Option FocusTargetM) (delta : ℚ)
    (w : RigWorld) : RigWorld :=
  let step := 4 * delta
  match focus with
  | some ft =>
      let snap1 := if w.snap.saved then w.snap
        else { saved := true, position := w.cam.pos, quaternion := w.cam.quat,
               target := w.ctrl.target }
      let ctrl1 := if w.snap.saved then w.ctrl else { w.ctrl with enabled := false }
      let fovRad := degToRad fov
      let distance := ft.height / 2 / ops.tan (fovRad / 2) * (13 / 10)
      let normal := applyQuat ft.rotation (0, 0, 1)
      let targetPos := addV ft.position (smulV distance normal)
      let newPos := lerpV w.cam.pos targetPos step
      let targetQuat := ops.lookAtQuat newPos ft.position
      let newQuat := ops.slerp w.cam.quat targetQuat step
      let newTarget := lerpV ctrl1.target ft.position step
      { snap := snap1, cam := { pos := newPos, quat := newQuat },
        ctrl := { ctrl1 with target := newTarget } }
  | none =>
      if w.snap.saved then
        let newPos := lerpV w.cam.pos w.snap.position step
        let newQuat := ops.slerp w.cam.quat w.snap.quaternion step
        let newTarget := lerpV w.ctrl.target w.snap.target step
        if d2V newPos w.snap.position < 1 / 100 then
          { snap := { w.snap with saved := false },
            cam := { pos := newPos, quat := newQuat },
            ctrl := { target := newTarget, enabled := true } }
        else
          { snap := w.snap, cam := { pos := newPos, quat := newQuat },
            ctrl := { w.ctrl with target := newTarget } }
      else w

/-- Iterated free-mode ticks (`focusTarget` null throughout). -/
def rigTicksFree (ops : RigOps) (fov delta : ℚ) : ℕ → RigWorld → RigWorld
  | 0, w => w
  | n + 1, w => rigTicksFree ops fov delta n (rigTick ops fov none delta w)

/-- Trivial instantiation of the abstracted transcendental helpers, used to
evaluate rig theorems on concrete inputs. -/
def trivialRigOps : RigOps :=
  { tan := fun _ => 0, slerp := fun q _ _ => q, lookAtQuat := fun _ _ => idQuat }

/-- Concrete camera direction for the selector example: chosen so that the
two concrete objects below have alignments exactly -0.9 and -0.85. -/
def camDirC5 : V3 := (-299 / 480, 0, -9 / 10)

/-- First selector-example object: identity orientation (facing normal
`(0,0,1)`, alignment -0.9) at camera distance 10. -/
def obj1C5 : SceneObj :=
  { isInteractable := true, ndc := (0, 0, 1 / 2), pos := (10, 0, 0), quat := idQuat }

/-- Second selector-example object: rotated about Y (facing normal
`(24/25, 0, 7/25)`, alignment -0.85) at camera distance 5. -/
def obj2C5 : SceneObj :=
  { isInteractable := true, ndc := (0, 0, 1 / 2), pos := (0, 0, 5),
    quat := { x := 0, y := 3 / 5, z := 0, w := 4 / 5 } }

/-- Concrete focus target (a 3 × 2 album image at the origin). -/
def ft0 : FocusTargetM :=
  { position := (0, 0, 0), rotation := idQuat, width := 3, height := 2 }

/-- Concrete application state in free-orbit mode (no focus target). -/
def freeAppState : AppState :=
  { cam := { azimuth := 0, polar := 1, camPos := (0, 0, 30), camQuat := idQuat,
             target := (0, 0, 0) },
    focusTarget := none, grabSignal := 0 }

/-- Concrete application state in preview mode (focus target set). -/
def focusedAppState : AppState :=
  { cam := { azimuth := 0, polar := 1, camPos := (0, 0, 30), camQuat := idQuat,
             target := (0, 0, 0) },
    focusTarget := some ft0, grabSignal := 0 }

/-- Concrete raycaster hit whose `userData.type` is not `'album-image'`. -/
def nonAlbumHit : HitData :=
  { utype := "particle-cloud", position := (0, 0, 0), rotation := idQuat,
    width := 1, height := 1 }

/-- Concrete raycaster hit on an album image. -/
def albumHit : HitData :=
  { utype := "album-image", position := (1, 2, 3), rotation := idQuat,
    width := 3, height := 2 }

/-- Concrete rig world with no saved pose and the camera away from the
origin. -/
def rigWorld0 : RigWorld :=
  { snap := { saved := false, position := (0, 0, 0), quaternion := idQuat,
              target := (0, 0, 0) },
    cam := { pos := (1, 2, 30), quat := idQuat },
    ctrl := { target := (0, 0, 0), enabled := true } }

lemma detectFist_fistHand : detectFist fistHand = true := by
  norm_num [detectFist, isFolded, fistHand, d2]

lemma detectFist_openHand : detectFist openHand = false := by
  norm_num [detectFist, isFolded, openHand, d2]

lemma detectOpenPalm_openHand : detectOpenPalm openHand = true := by
  norm_num [detectOpenPalm, isExtended, openHand, d2]

lemma detectFist_twoFingerHand (px py : ℚ) : detectFist (twoFingerHand px py) = false := by
  norm_num [detectFist, isFolded, twoFingerHand, d2]

lemma detectOpenPalm_twoFingerHand (px py : ℚ) :
    detectOpenPalm (twoFingerHand px py) = false := by
  norm_num [detectOpenPalm, isExtended, twoFingerHand, d2]

lemma detectTwoFingers_twoFingerHand (px py : ℚ) :
    detectTwoFingers (twoFingerHand px py) = true := by
  norm_num [detectTwoFingers, isExtended, isFolded, twoFingerHand, d2]

lemma detectFist_neutralHand (d : ℚ) : detectFist (neutralHand d) = false := by
  norm_num [detectFist, isFolded, neutralHand, d2]

lemma detectOpenPalm_neutralHand (d : ℚ) : detectOpenPalm (neutralHand d) = false := by
  norm_num [detectOpenPalm, isExtended, neutralHand, d2]

lemma detectTwoFingers_neutralHand (d : ℚ) : detectTwoFingers (neutralHand d) = false := by
  norm_num [detectTwoFingers, isExtended, isFolded, neutralHand, d2]

lemma processFrame_fist_rising (p : Bool) (s : TrackState) (h : Hand)
    (hf : detectFist h = true) (hw : s.wasFist = false) :
    processFrame p s (some h) =
      { state := { wasFist := true, lastPalmPos := none, smoothRot := s.smoothRot },
        events := [GEvent.Grab], labelSet := some (some GLabel.grabbing) } := by
  simp [processFrame, hf, hw]

lemma processFrame_fist_held (p : Bool) (s : TrackState) (h : Hand)
    (hf : detectFist h = true) (hw : s.wasFist = true) :
    processFrame p s (some h) =
      { state := { wasFist := true, lastPalmPos := none, smoothRot := s.smoothRot },
        events := [], labelSet := some (some GLabel.holding) } := by
  simp [processFrame, hf, hw]

lemma processFrame_nonfist_clears_wasFist (p : Bool) (s : TrackState) (h : Hand)
    (hf : detectFist h = false) :
    (processFrame p s (some h)).state.wasFist = false := by
  simp only [processFrame, hf]
  repeat' split
  all_goals simp_all

lemma grabCount_nil : grabCount [] = 0 := rfl

lemma grabCount_cons (evs : List GEvent) (r : List (List GEvent)) :
    grabCount (evs :: r) = evs.count GEvent.Grab + grabCount r := by
  simp [grabCount]

lemma processSeq_hold_run (p : Bool) :
    ∀ (hs : List Hand) (s : TrackState), s.wasFist = true →
      (∀ h ∈ hs, detectFist h = true) →
      grabCount (processSeq p s (hs.map some)).2 = 0 := by
  intro hs
  induction hs with
  | nil => intro s _ _; simp [processSeq, grabCount]
  | cons h t ih =>
      intro s hw hall
      have hf : detectFist h = true := hall h (by simp)
      simp only [List.map_cons, processSeq, processFrame_fist_held p s h hf hw]
      rw [grabCount_cons]
      simp only [List.count_nil, Nat.zero_add]
      exact ih _ rfl (fun x hx => hall x (by simp [hx]))

lemma processSeq_fist_run (p : Bool) (s : TrackState) (hs : List Hand)
    (hw : s.wasFist = false) (hne : hs ≠ [])
    (hall : ∀ h ∈ hs, detectFist h = true) :
    grabCount (processSeq p s (hs.map some)).2 = 1 := by
  cases hs with
  | nil => exact absurd rfl hne
  | cons h t =>
      have hf : detectFist h = true := hall h (by simp)
      simp only [List.map_cons, processSeq, processFrame_fist_rising p s h hf hw]
      rw [grabCount_cons]
      have hz : grabCount (processSeq p ⟨true, none, s.smoothRot⟩ (t.map some)).2 = 0 :=
        processSeq_hold_run p t ⟨true, none, s.smoothRot⟩ rfl
          (fun x hx => hall x (by simp [hx]))
      simp [hz]

/-- C1: the Grab event is edge-triggered on the fist pose.  A fist frame seen
while `wasFist` is false emits exactly the one `Grab` callback and sets
`wasFist`, every further fist frame of the run emits no callback while keeping
`wasFist` set and `lastPalmPos` cleared, every non-fist frame resets
`wasFist`, so a contiguous run of fist frames entered with `wasFist = false`
produces exactly one Grab; the concrete sequence open, fist, fist, fist, open
produces the per-frame callbacks Release, Grab, nothing, nothing, Release. -/
theorem c1_grab_edge_triggered :
    (∀ (p : Bool) (s : TrackState) (h : Hand), detectFist h = true → s.wasFist = false →
        processFrame p s (some h) =
          { state := { wasFist := true, lastPalmPos := none, smoothRot := s.smoothRot },
            events := [GEvent.Grab], labelSet := some (some GLabel.grabbing) }) ∧
    (∀ (p : Bool) (s : TrackState) (h : Hand), detectFist h = true → s.wasFist = true →
        processFrame p s (some h) =
          { state := { wasFist := true, lastPalmPos := none, smoothRot := s.smoothRot },
            events := [], labelSet := some (some GLabel.holding) }) ∧
    (∀ (p : Bool) (s : TrackState) (h : Hand), detectFist h = false →
        (processFrame p s (some h)).state.wasFist = false) ∧
    (∀ (p : Bool) (s : TrackState) (hs : List Hand), s.wasFist = false → hs ≠ [] →
        (∀ h ∈ hs, detectFist h = true) →
        grabCount (processSeq p s (hs.map some)).2 = 1) ∧
    (processSeq false initTrack demoSeq).2 =
      [[GEvent.Release], [GEvent.Grab], [], [], [GEvent.Release]] := by
  refine ⟨processFrame_fist_rising, processFrame_fist_held,
    processFrame_nonfist_clears_wasFist, processSeq_fist_run, ?_⟩
  simp [demoSeq, processSeq, initTrack,
    processFrame_fist_rising, processFrame_fist_held,
    processFrame, detectFist_fistHand, detectFist_openHand, detectOpenPalm_openHand]

/-- C1 witness: the edge case evaluated at the concrete fist hand from the
initial tracking state. -/
theorem c1_grab_edge_triggered_witness :
    processFrame false initTrack (some fistHand) =
      { state := { wasFist := true, lastPalmPos := none, smoothRot := (0, 0) },
        events := [GEvent.Grab], labelSet := some (some GLabel.grabbing) } :=
  c1_grab_edge_triggered.1 false initTrack fistHand detectFist_fistHand rfl

lemma detectFist_eq_false_of_twoFingers (h : Hand) (ht : detectTwoFingers h = true) :
    detectFist h = false := by
  simp only [detectTwoFingers, isExtended, isFolded, Bool.and_eq_true,
    decide_eq_true_eq] at ht
  obtain ⟨⟨⟨h1, h2⟩, h3⟩, h4⟩ := ht
  rw [Bool.eq_false_iff]
  intro hc
  simp only [detectFist, isFolded, Bool.and_eq_true, decide_eq_true_eq] at hc
  obtain ⟨⟨⟨c1, c2⟩, c3⟩, c4⟩ := hc
  linarith

lemma detectOpenPalm_eq_false_of_twoFingers (h : Hand) (ht : detectTwoFingers h = true) :
    detectOpenPalm h = false := by
  simp only [detectTwoFingers, isExtended, isFolded, Bool.and_eq_true,
    decide_eq_true_eq] at ht
  obtain ⟨⟨⟨h1, h2⟩, h3⟩, h4⟩ := ht
  rw [Bool.eq_false_iff]
  intro hc
  simp only [detectOpenPalm, isExtended, Bool.and_eq_true, decide_eq_true_eq] at hc
  obtain ⟨⟨⟨c1, c2⟩, c3⟩, c4⟩ := hc
  linarith

lemma processFrame_unclassified (p : Bool) (s : TrackState) (h : Hand)
    (hf : detectFist h = false) (ho : detectOpenPalm h = false)
    (ht : detectTwoFingers h = false) :
    processFrame p s (some h) =
      (if d2 (h 4) (h 8) < 1 / 400 then
         { state := { wasFist := false, lastPalmPos := none, smoothRot := s.smoothRot },
           events := [GEvent.ZoomOut], labelSet := some (some GLabel.zoomOutLbl) }
       else if 9 / 625 < d2 (h 4) (h 8) then
         { state := { wasFist := false, lastPalmPos := none, smoothRot := s.smoothRot },
           events := [GEvent.ZoomIn], labelSet := some (some GLabel.zoomInLbl) }
       else
         { state := { wasFist := false, lastPalmPos := none, smoothRot := s.smoothRot },
           events := [], labelSet := some (some GLabel.idleLbl) }) := by
  simp [processFrame, hf, ho, ht]

/-- C2: on a frame classified as neither fist, open palm nor two-finger
point, the machine clears `wasFist` and `lastPalmPos` and classifies by the
thumb-tip(4)/index-tip(8) pinch distance (embedded squared: `1/400 = 0.05²`,
`9/625 = 0.12²`): strictly below 0.05 emits `ZoomOut`, strictly above 0.12
emits `ZoomIn`, anything in between emits no callback and shows the Idle
label.  Concretely, pinch distance 0.049 gives ZoomOut, 0.05 gives Idle and
0.121 gives ZoomIn. -/
theorem c2_pinch_zoom_thresholds :
    (∀ (p : Bool) (s : TrackState) (h : Hand),
        detectFist h = false → detectOpenPalm h = false → detectTwoFingers h = false →
        (processFrame p s (some h)).state =
          { wasFist := false, lastPalmPos := none, smoothRot := s.smoothRot } ∧
        (d2 (h 4) (h 8) < 1 / 400 →
          (processFrame p s (some h)).events = [GEvent.ZoomOut]) ∧
        (1 / 400 ≤ d2 (h 4) (h 8) → d2 (h 4) (h 8) ≤ 9 / 625 →
          (processFrame p s (some h)).events = [] ∧
          (processFrame p s (some h)).labelSet = some (some GLabel.idleLbl) ∧
          frameEvent (processFrame p s (some h)) = GEvent.Idle) ∧
        (9 / 625 < d2 (h 4) (h 8) →
          (processFrame p s (some h)).events = [GEvent.ZoomIn])) ∧
    frameEvent (processFrame false initTrack (some (neutralHand (49 / 1000)))) =
      GEvent.ZoomOut ∧
    (processFrame false initTrack (some (neutralHand (5 / 100)))).events = [] ∧
    (processFrame false initTrack (some (neutralHand (5 / 100)))).labelSet =
      some (some GLabel.idleLbl) ∧
    frameEvent (processFrame false initTrack (some (neutralHand (121 / 1000)))) =
      GEvent.ZoomIn := by
  constructor
  · intro p s h hf ho ht
    rw [processFrame_unclassified p s h hf ho ht]
    refine ⟨?_, ?_, ?_, ?_⟩
    · repeat' split
      all_goals rfl
    · intro hlt
      rw [if_pos hlt]
    · intro hge hle
      rw [if_neg (not_lt.mpr hge), if_neg (not_lt.mpr hle)]
      exact ⟨rfl, rfl, rfl⟩
    · intro hgt
      have hh : ¬ d2 (h 4) (h 8) < 1 / 400 :=
        not_lt.mpr (le_of_lt (lt_trans (by norm_num) hgt))
      rw [if_neg hh, if_pos hgt]
  · refine ⟨?_, ?_, ?_, ?_⟩ <;>
      norm_num [processFrame, frameEvent, detectFist_neutralHand,
        detectOpenPalm_neutralHand, detectTwoFingers_neutralHand, neutralHand, d2, initTrack]

/-- C2 witness: the general trichotomy applied to the concrete neutral hand
with pinch distance 0.049. -/
theorem c2_pinch_zoom_thresholds_witness :
    (processFrame false initTrack (some (neutralHand (49 / 1000)))).events =
      [GEvent.ZoomOut] :=
  ((c2_pinch_zoom_thresholds.1 false initTrack (neutralHand (49 / 1000))
      (detectFist_neutralHand _) (detectOpenPalm_neutralHand _)
      (detectTwoFingers_neutralHand _)).2.1)
    (by norm_num [neutralHand, d2])

/-- C4: deadzone suppression on two-finger rotation frames outside preview
mode.  When both per-axis palm deltas are strictly below 0.005 in absolute
value, the frame emits no callback (in particular no Rotate) and leaves the
smoothing accumulator `smoothRot` untouched, but `lastPalmPos` is still
updated to the current palm center (landmark 9). -/
theorem c4_deadzone_updates_lastPalm :
    ∀ (s : TrackState) (h : Hand) (lp : Pt),
      detectTwoFingers h = true → s.lastPalmPos = some lp →
      |(h 9).1 - lp.1| < 5 / 1000 → |(h 9).2 - lp.2| < 5 / 1000 →
      (processFrame false s (some h)).events = [] ∧
      (processFrame false s (some h)).state.smoothRot = s.smoothRot ∧
      (processFrame false s (some h)).state.lastPalmPos = some (h 9) := by
  intro s h lp ht hlp hdx hdy
  have hf := detectFist_eq_false_of_twoFingers h ht
  have ho := detectOpenPalm_eq_false_of_twoFingers h ht
  have hdz : ¬ (5 / 1000 < |(h 9).1 - lp.1| ∨ 5 / 1000 < |(h 9).2 - lp.2|) := by
    push_neg
    exact ⟨le_of_lt hdx, le_of_lt hdy⟩
  simp [processFrame, hf, ho, ht, hlp, hdz]

/-- C4 witness: a two-finger hand whose palm center moved by 0.004 on x and
0 on y from the stored palm position. -/
theorem c4_deadzone_updates_lastPalm_witness :
    (processFrame false
        { wasFist := false, lastPalmPos := some (1 / 2, 1 / 2), smoothRot := (0, 0) }
        (some (twoFingerHand (504 / 1000) (1 / 2)))).events = [] ∧
    (processFrame false
        { wasFist := false, lastPalmPos := some (1 / 2, 1 / 2), smoothRot := (0, 0) }
        (some (twoFingerHand (504 / 1000) (1 / 2)))).state.smoothRot = (0, 0) ∧
    (processFrame false
        { wasFist := false, lastPalmPos := some (1 / 2, 1 / 2), smoothRot := (0, 0) }
        (some (twoFingerHand (504 / 1000) (1 / 2)))).state.lastPalmPos =
      some (504 / 1000, 1 / 2) := by
  have hh := c4_deadzone_updates_lastPalm
    { wasFist := false, lastPalmPos := some (1 / 2, 1 / 2), smoothRot := (0, 0) }
    (twoFingerHand (504 / 1000) (1 / 2)) (1 / 2, 1 / 2)
    (detectTwoFingers_twoFingerHand _ _) rfl
    (by norm_num [twoFingerHand, abs_lt]) (by norm_num [twoFingerHand, abs_lt])
  simpa [twoFingerHand] using hh

/-- C6 counterexample: on the empty landmark array both classifiers fail
(the JavaScript code dereferences an `undefined` landmark and throws,
embedded as `none`) instead of returning the all-false feature `some false`
that the claim promises. -/
theorem c6_counterexample_empty_landmarks :
    detectFistE [] = none ∧ detectTwoFingersE [] = none ∧
    ¬ detectFistE [] = some false ∧ ¬ detectTwoFingersE [] = some false := by
  refine ⟨rfl, rfl, ?_, ?_⟩ <;> simp [detectFistE, detectTwoFingersE, isFoldedE, isExtendedE]

/-- C6 amended: the classifiers contain no landmark-count guard.  Whenever a
landmark needed by the first finger check is missing — in particular for
every array of fewer than nine landmarks, which lacks index tip 8 — the
classifier call fails with an undefined-property access (modeled as `none`)
rather than returning the all-false features. -/
theorem c6_short_array_throws :
    ∀ lm : List Pt, lm.length ≤ 8 →
      detectFistE lm = none ∧ detectTwoFingersE lm = none := by
  intro lm hlen
  have h8 : lm[8]? = none := by
    rw [List.getElem?_eq_none_iff]
    exact hlen
  constructor
  · simp [detectFistE, isFoldedE, h8]
  · simp [detectTwoFingersE, isExtendedE, h8]

/-- C6 witness: the amended statement evaluated on the empty landmark
array. -/
theorem c6_short_array_throws_witness :
    detectFistE [] = none ∧ detectTwoFingersE [] = none :=
  c6_short_array_throws [] (by simp)

/-- C7: each processed frame makes at most one `onGesture` callback (so, in
the spec's event vocabulary where a callback-free frame carries `Idle`,
exactly one gesture event per frame), and a processed frame with no detected
hand clears `wasFist` and `lastPalmPos`, surfaces the no-active-gesture state
to the observer (`setActiveGesture(null)`), and carries the `Idle` event. -/
theorem c7_one_event_per_frame :
    (∀ (p : Bool) (s : TrackState) (hand? : Option Hand),
        (processFrame p s hand?).events.length ≤ 1) ∧
    (∀ (p : Bool) (s : TrackState),
        processFrame p s none =
          { state := { wasFist := false, lastPalmPos := none, smoothRot := s.smoothRot },
            events := [], labelSet := some none } ∧
        frameEvent (processFrame p s none) = GEvent.Idle) := by
  constructor
  · intro p s hand?
    cases hand? with
    | none => simp [processFrame]
    | some h =>
        simp only [processFrame]
        repeat' split
        all_goals simp
  · intro p s
    exact ⟨rfl, rfl⟩

/-- C7 witness: the no-hand frame from the initial tracking state. -/
theorem c7_one_event_per_frame_witness :
    processFrame true initTrack none =
      { state := { wasFist := false, lastPalmPos := none, smoothRot := (0, 0) },
        events := [], labelSet := some none } :=
  (c7_one_event_per_frame.2 true initTrack).1

/-- C3: a frame classified as two-finger point while preview mode is active
emits no callback at all (in particular no Rotate) — the machine only shows
the disabled-move label; and the camera controller ignores a Rotate event
entirely while a `focusTarget` is set, leaving the whole state (in
particular azimuth and polar) unchanged. -/
theorem c3_rotate_disabled_in_preview :
    (∀ (s : TrackState) (h : Hand), detectTwoFingers h = true →
        (processFrame true s (some h)).events = [] ∧
        (processFrame true s (some h)).labelSet = some (some GLabel.moveDisabled)) ∧
    (∀ (s : AppState) (ft : FocusTargetM) (dx dy : ℚ), s.focusTarget = some ft →
        handleGesture s (GEvent.Rotate dx dy) = s ∧
        (handleGesture s (GEvent.Rotate dx dy)).cam.azimuth = s.cam.azimuth ∧
        (handleGesture s (GEvent.Rotate dx dy)).cam.polar = s.cam.polar) := by
  constructor
  · intro s h ht
    have hf := detectFist_eq_false_of_twoFingers h ht
    have ho := detectOpenPalm_eq_false_of_twoFingers h ht
    constructor <;> simp [processFrame, hf, ho, ht]
  · intro s ft dx dy hfo
    have hh : handleGesture s (GEvent.Rotate dx dy) = s := by
      simp [handleGesture, hfo]
    exact ⟨hh, by rw [hh], by rw [hh]⟩

/-- C3 witness: the concrete two-finger hand in preview mode, and a Rotate
event against the concrete focused application state. -/
theorem c3_rotate_disabled_in_preview_witness :
    (processFrame true initTrack (some (twoFingerHand (1 / 2) (1 / 2)))).events = [] ∧
    handleGesture focusedAppState (GEvent.Rotate 1 1) = focusedAppState :=
  ⟨(c3_rotate_disabled_in_preview.1 initTrack (twoFingerHand (1 / 2) (1 / 2))
      (detectTwoFingers_twoFingerHand _ _)).1,
   (c3_rotate_disabled_in_preview.2 focusedAppState ft0 1 1 rfl).1⟩

/-- C8: with no focus target active, Rotate subtracts `dx * 20` from the
azimuth and clamps `polar - dy * 20` into `[0.1, π - 0.1]` (with `π` the
exact value of the double `Math.PI`); consequently the polar angle lies in
that interval after every applied rotation, for all `dx`, `dy`. -/
theorem c8_rotate_applies_and_polar_clamped :
    ∀ (s : AppState) (dx dy : ℚ), s.focusTarget = none →
      (handleGesture s (GEvent.Rotate dx dy)).cam.azimuth =
        s.cam.azimuth - dx * SENSITIVITY ∧
      (handleGesture s (GEvent.Rotate dx dy)).cam.polar =
        max (1 / 10) (min (mathPI - 1 / 10) (s.cam.polar - dy * SENSITIVITY)) ∧
      1 / 10 ≤ (handleGesture s (GEvent.Rotate dx dy)).cam.polar ∧
      (handleGesture s (GEvent.Rotate dx dy)).cam.polar ≤ mathPI - 1 / 10 := by
  intro s dx dy hfo
  have hn : s.focusTarget.isNone = true := by simp [hfo]
  have ha : (handleGesture s (GEvent.Rotate dx dy)).cam.azimuth =
      s.cam.azimuth - dx * SENSITIVITY := by
    simp [handleGesture, hn]
  have hp : (handleGesture s (GEvent.Rotate dx dy)).cam.polar =
      max (1 / 10) (min (mathPI - 1 / 10) (s.cam.polar - dy * SENSITIVITY)) := by
    simp [handleGesture, hn]
  refine ⟨ha, hp, ?_, ?_⟩
  · rw [hp]
    exact le_max_left _ _
  · rw [hp]
    apply max_le
    · norm_num [mathPI]
    · exact min_le_left _ _

/-- C8 witness: a large downward rotation applied in free-orbit mode stays
inside the clamp interval. -/
theorem c8_rotate_applies_and_polar_clamped_witness :
    1 / 10 ≤ (handleGesture freeAppState (GEvent.Rotate 1 1)).cam.polar ∧
    (handleGesture freeAppState (GEvent.Rotate 1 1)).cam.polar ≤ mathPI - 1 / 10 :=
  ⟨(c8_rotate_applies_and_polar_clamped freeAppState 1 1 rfl).2.2.1,
   (c8_rotate_applies_and_polar_clamped freeAppState 1 1 rfl).2.2.2⟩

/-- C10: a Grab-selected hit sets the `focusTarget` (and with it preview
mode and the particle pause flag, both derived from `focusTarget`) only when
its `userData.type` is `'album-image'`; any other hit type leaves the whole
application state unchanged, so the Grab is a no-op. -/
theorem c10_focus_only_album_hits :
    (∀ (s : AppState) (hit : HitData), hit.utype ≠ "album-image" →
        handleObjectHit s hit = s) ∧
    (∀ (s : AppState) (hit : HitData), hit.utype ≠ "album-image" →
        (handleObjectHit s hit).focusTarget = s.focusTarget ∧
        isPaused (handleObjectHit s hit) = isPaused s ∧
        previewActive (handleObjectHit s hit) = previewActive s) ∧
    (∀ (s : AppState) (hit : HitData), hit.utype = "album-image" →
        (handleObjectHit s hit).focusTarget =
          some { position := hit.position, rotation := hit.rotation,
                 width := hit.width, height := hit.height } ∧
        isPaused (handleObjectHit s hit) = true ∧
        previewActive (handleObjectHit s hit) = true) := by
  have hno : ∀ (s : AppState) (hit : HitData), hit.utype ≠ "album-image" →
      handleObjectHit s hit = s := by
    intro s hit hne
    simp [handleObjectHit, hne]
  refine ⟨hno, ?_, ?_⟩
  · intro s hit hne
    rw [hno s hit hne]
    exact ⟨rfl, rfl, rfl⟩
  · intro s hit heq
    refine ⟨?_, ?_, ?_⟩ <;> simp [handleObjectHit, heq, isPaused, previewActive]

/-- C10 witness: a non-album hit leaves the free application state
untouched, while the concrete album hit sets its focus target. -/
theorem c10_focus_only_album_hits_witness :
    handleObjectHit freeAppState nonAlbumHit = freeAppState ∧
    isPaused (handleObjectHit freeAppState albumHit) = true :=
  ⟨c10_focus_only_album_hits.1 freeAppState nonAlbumHit (by simp [nonAlbumHit]),
   (c10_focus_only_album_hits.2.2 freeAppState albumHit rfl).2.1⟩

/-- C9: the snapshot taken on the first focused tick stores the camera pose
exactly, and if the focus target is set and cleared again before any rig
tick runs, then every subsequent free-mode tick is the identity — the camera
sits at exactly its pre-focus pose once (vacuous) restoration completes,
with no interpolation error, for every implementation of the transcendental
helpers. -/
theorem c9_release_before_tick_exact :
    (∀ (ops : RigOps) (fov delta : ℚ) (ft : FocusTargetM) (w : RigWorld),
        w.snap.saved = false →
        (rigTick ops fov (some ft) delta w).snap.saved = true ∧
        (rigTick ops fov (some ft) delta w).snap.position = w.cam.pos ∧
        (rigTick ops fov (some ft) delta w).snap.quaternion = w.cam.quat ∧
        (rigTick ops fov (some ft) delta w).snap.target = w.ctrl.target) ∧
    (∀ (ops : RigOps) (fov delta : ℚ) (n : ℕ) (w : RigWorld),
        w.snap.saved = false →
        rigTicksFree ops fov delta n w = w) := by
  constructor
  · intro ops fov delta ft w hs
    refine ⟨?_, ?_, ?_, ?_⟩ <;> simp [rigTick, hs]
  · intro ops fov delta n
    induction n with
    | zero => intro w _; rfl
    | succ k ih =>
        intro w hs
        have ht : rigTick ops fov none delta w = w := by
          simp [rigTick, hs]
        rw [rigTicksFree, ht]
        exact ih w hs

/-- C9 witness: five free-mode ticks after a zero-tick focus round trip
leave the concrete rig world exactly in place, and a focused tick snapshots
its exact camera position. -/
theorem c9_release_before_tick_exact_witness :
    rigTicksFree trivialRigOps 60 (1 / 60) 5 rigWorld0 = rigWorld0 ∧
    (rigTick trivialRigOps 60 (some ft0) (1 / 60) rigWorld0).snap.position = (1, 2, 30) :=
  ⟨c9_release_before_tick_exact.2 trivialRigOps 60 (1 / 60) 5 rigWorld0 rfl,
   (c9_release_before_tick_exact.1 trivialRigOps 60 (1 / 60) ft0 rigWorld0 rfl).2.1⟩

lemma mem_insertCand (x a : Candidate) (l : List Candidate) :
    a ∈ insertCand x l ↔ a = x ∨ a ∈ l := by
  induction l with
  | nil => simp [insertCand]
  | cons y ys ih =>
      simp only [insertCand]
      split
      · simp [List.mem_cons]
      · simp only [List.mem_cons, ih]
        tauto

lemma mem_foldl_insertCand (l : List Candidate) :
    ∀ (acc : List Candidate) (a : Candidate),
      a ∈ l.foldl (fun acc x => insertCand x acc) acc ↔ a ∈ acc ∨ a ∈ l := by
  induction l with
  | nil => simp
  | cons x xs ih =>
      intro acc a
      rw [List.foldl_cons, ih, mem_insertCand]
      simp only [List.mem_cons]
      tauto

lemma mem_sortCands (l : List Candidate) (a : Candidate) :
    a ∈ sortCands l ↔ a ∈ l := by
  rw [sortCands, mem_foldl_insertCand]
  simp

lemma sortCands_eq_nil_iff (l : List Candidate) : sortCands l = [] ↔ l = [] := by
  constructor
  · intro hs
    by_contra hne
    obtain ⟨a, ha⟩ := List.exists_mem_of_ne_nil l hne
    have hmem := (mem_sortCands l a).mpr ha
    rw [hs] at hmem
    exact absurd hmem (List.not_mem_nil a)
  · intro h
    subst h
    rfl

lemma sortCands_pair (a b : Candidate) :
    sortCands [a, b] = if compareCand b a < 0 then [b, a] else [a, b] := by
  simp only [sortCands, List.foldl_cons, List.foldl_nil, insertCand]

lemma candFn_eq_some (camDir camPos : V3) (o : SceneObj) (c : Candidate) :
    (if o.isInteractable then
       if |o.ndc.2.2| < 1 ∧ |o.ndc.1| < 8 / 10 ∧ |o.ndc.2.1| < 8 / 10 then
         if dotV camDir (applyQuat o.quat (0, 0, 1)) < 2 / 10 then
           some { alignment := dotV camDir (applyQuat o.quat (0, 0, 1)),
                  distSq := d2V o.pos camPos, obj := o }
         else none
       else none
     else none) = some c ↔
    (o.isInteractable = true ∧ |o.ndc.2.2| < 1 ∧ |o.ndc.1| < 8 / 10 ∧
     |o.ndc.2.1| < 8 / 10 ∧ dotV camDir (applyQuat o.quat (0, 0, 1)) < 2 / 10 ∧
     c = { alignment := dotV camDir (applyQuat o.quat (0, 0, 1)),
           distSq := d2V o.pos camPos, obj := o }) := by
  constructor
  · intro h
    split_ifs at h with h1 h2 h3
    · obtain ⟨h2a, h2b, h2c⟩ := h2
      injection h with hc
      exact ⟨h1, h2a, h2b, h2c, h3, hc.symm⟩
  · rintro ⟨h1, h2a, h2b, h2c, h3, hc⟩
    rw [if_pos h1, if_pos (⟨h2a, h2b, h2c⟩ : _ ∧ _ ∧ _), if_pos h3, hc]

lemma mem_candidatesOf (camDir camPos : V3) (objs : List SceneObj) (c : Candidate) :
    c ∈ candidatesOf camDir camPos objs ↔
      ∃ o, o ∈ objs ∧ o.isInteractable = true ∧ |o.ndc.2.2| < 1 ∧
        |o.ndc.1| < 8 / 10 ∧ |o.ndc.2.1| < 8 / 10 ∧
        dotV camDir (applyQuat o.quat (0, 0, 1)) < 2 / 10 ∧
        c = { alignment := dotV camDir (applyQuat o.quat (0, 0, 1)),
              distSq := d2V o.pos camPos, obj := o } := by
  rw [candidatesOf, List.mem_filterMap]
  apply exists_congr
  intro o
  rw [and_congr_right_iff]
  intro _
  exact candFn_eq_some camDir camPos o c

/-- C5: the selector keeps exactly the interactable objects with in-range
projected depth, `|x|, |y| < 0.8` and alignment below 0.2; among two
survivors it returns the nearer one when their alignments differ by less
than 0.1 and the lower-alignment one otherwise (whatever the scan order);
it returns a survivor when one exists and none when the filtered set is
empty; and on the concrete pair with alignments -0.9 and -0.85 at distances
10 and 5 it returns the distance-5 candidate. -/
theorem c5_selector_alignment_ranking :
    (∀ (camDir camPos : V3) (objs : List SceneObj) (c : Candidate),
        c ∈ candidatesOf camDir camPos objs ↔
          ∃ o, o ∈ objs ∧ o.isInteractable = true ∧ |o.ndc.2.2| < 1 ∧
            |o.ndc.1| < 8 / 10 ∧ |o.ndc.2.1| < 8 / 10 ∧
            dotV camDir (applyQuat o.quat (0, 0, 1)) < 2 / 10 ∧
            c = { alignment := dotV camDir (applyQuat o.quat (0, 0, 1)),
                  distSq := d2V o.pos camPos, obj := o }) ∧
    (∀ (camDir camPos : V3) (objs : List SceneObj),
        selectorBest camDir camPos objs = none ↔ candidatesOf camDir camPos objs = []) ∧
    (∀ (camDir camPos : V3) (objs : List SceneObj) (c : Candidate),
        selectorBest camDir camPos objs = some c → c ∈ candidatesOf camDir camPos objs) ∧
    (∀ a b : Candidate, |a.alignment - b.alignment| < 1 / 10 → a.distSq < b.distSq →
        (sortCands [a, b]).head? = some a ∧ (sortCands [b, a]).head? = some a) ∧
    (∀ a b : Candidate, 1 / 10 ≤ |a.alignment - b.alignment| → a.alignment < b.alignment →
        (sortCands [a, b]).head? = some a ∧ (sortCands [b, a]).head? = some a) ∧
    selectorBest camDirC5 (0, 0, 0) [obj1C5, obj2C5] =
      some { alignment := -17 / 20, distSq := 25, obj := obj2C5 } := by
  refine ⟨mem_candidatesOf, ?_, ?_, ?_, ?_, ?_⟩
  · intro camDir camPos objs
    rw [selectorBest, List.head?_eq_none_iff, sortCands_eq_nil_iff]
  · intro camDir camPos objs c hsel
    have hmem : c ∈ sortCands (candidatesOf camDir camPos objs) :=
      List.mem_of_mem_head? (by rw [Option.mem_def]; exact hsel)
    exact (mem_sortCands _ _).mp hmem
  · intro a b hclose hlt
    have hba : ¬ compareCand b a < 0 := by
      rw [compareCand, abs_sub_comm, if_pos hclose]
      simp only [not_lt, sub_nonneg]
      exact le_of_lt hlt
    have hab : compareCand a b < 0 := by
      rw [compareCand, if_pos hclose]
      simpa using hlt
    constructor
    · rw [sortCands_pair, if_neg hba]
      rfl
    · rw [sortCands_pair, if_pos hab]
      rfl
  · intro a b hfar hlt
    have hfar2 : ¬ |b.alignment - a.alignment| < 1 / 10 := by
      rw [abs_sub_comm]
      exact not_lt.mpr hfar
    have hba : ¬ compareCand b a < 0 := by
      rw [compareCand, if_neg hfar2]
      simp only [not_lt, sub_nonneg]
      exact le_of_lt hlt
    have hab : compareCand a b < 0 := by
      rw [compareCand, if_neg (by rw [abs_sub_comm] at hfar2; exact hfar2)]
      simpa using hlt
    constructor
    · rw [sortCands_pair, if_neg hba]
      rfl
    · rw [sortCands_pair, if_pos hab]
      rfl
  · norm_num [selectorBest, sortCands, candidatesOf, List.filterMap, insertCand,
      compareCand, applyQuat, dotV, crossV, smulV, addV, subV, d2V, lengthSqV,
      camDirC5, obj1C5, obj2C5, idQuat, abs_lt]

/-- C5 witness: the tie-band ranking rule applied to the two concrete
candidates of the example (alignment difference 0.05, distances 10 and 5). -/
theorem c5_selector_alignment_ranking_witness :
    (sortCands [{ alignment := -17 / 20, distSq := 25, obj := obj2C5 },
                { alignment := -9 / 10, distSq := 100, obj := obj1C5 }]).head? =
      some { alignment := -17 / 20, distSq := 25, obj := obj2C5 } :=
  ((c5_selector_alignment_ranking.2.2.2.1
      { alignment := -17 / 20, distSq := 25, obj := obj2C5 }
      { alignment := -9 / 10, distSq := 100, obj := obj1C5 }
      (by norm_num [abs_lt]) (by norm_num)).1)
